import Mathlib

/-!
Shallow embedding of the AI Text Summarizer app (src/main.py): quota state with
daily reset, the Generate Summary handler (validation, success commit, error
classification), prompt building, the temperature table and display metrics.
-/

namespace Summarizer

/-- Whitespace characters recognised by Python str.split() / str.strip()
for ASCII text: space, tab, newline, carriage return, vertical tab, form feed. -/
def pyWhitespace (c : Char) : Bool :=
  c = ' ' || c = '\t' || c = '\n' || c = '\r' || c = '\x0b' || c = '\x0c'

/-- Python text.strip(): drop whitespace from both ends. -/
def strip (s : String) : String :=
  String.mk (((s.data.dropWhile pyWhitespace).reverse.dropWhile pyWhitespace).reverse)

/-- Counts maximal runs of non-whitespace characters; the Bool flag says whether
the previous character was inside a word. -/
def wordCountAux : List Char → Bool → Nat
  | [], _ => 0
  | c :: cs, inWord =>
      if pyWhitespace c then wordCountAux cs false
      else (if inWord then 0 else 1) + wordCountAux cs true

/-- Python len(text.split()): the whitespace-split token count. -/
def wordCount (s : String) : Nat :=
  wordCountAux s.data false

/-- Does the first list start with the second list (pattern)? -/
def startsWithL : List Char → List Char → Bool
  | [], _ => true
  | _ :: _, [] => false
  | p :: ps, c :: cs => (p == c) && startsWithL ps cs

/-- The characters strictly after the first (leftmost) occurrence of pat, or
none when pat does not occur. -/
def afterFirst (pat : List Char) : List Char → Option (List Char)
  | [] => if startsWithL pat [] then some [] else none
  | c :: cs =>
      if startsWithL pat (c :: cs) then some (List.drop pat.length (c :: cs))
      else afterFirst pat cs

/-- Python membership test pat in s. -/
def containsSubstr (s pat : String) : Bool :=
  (afterFirst pat.data s.data).isSome

/-- Decimal value of a run of digit characters. -/
def digitsToNat (ds : List Char) : Nat :=
  ds.foldl (fun n c => 10 * n + (c.toNat - 48)) 0

/-- Embedding of re.search(r'quotaValue[^\d]*(\d+)', txt) followed by
int(match.group(1)): the first maximal digit run after the first occurrence of
the token quotaValue, when both exist. -/
def extractQuotaValue (txt : String) : Option Nat :=
  match afterFirst "quotaValue".data txt.data with
  | none => none
  | some rest =>
      let ds := (rest.dropWhile (fun c => !c.isDigit)).takeWhile Char.isDigit
      if ds.isEmpty then none else some (digitsToNat ds)

/-- The session state the claims are about: st.session_state.day,
request_count, daily_limit and history (a list of (role, message) pairs). -/
structure AppState where
  day : String
  request_count : Nat
  daily_limit : Nat
  history : List (String × String)
deriving DecidableEq

/-- First-use initialisation: day = today, request_count = 0, daily_limit = 50,
history = []. -/
def initState (today : String) : AppState :=
  { day := today, request_count := 0, daily_limit := 50, history := [] }

/-- The daily reset block: when the stored day differs from today, set
day := today and request_count := 0 (daily_limit is untouched). -/
def dailyReset (s : AppState) (today : String) : AppState :=
  if s.day ≠ today then { s with day := today, request_count := 0 } else s

/-- The Clear chat button: history := []. -/
def clearChat (s : AppState) : AppState :=
  { s with history := [] }

/-- The five values of the summary-length slider. -/
inductive SummaryLength
  | veryShort
  | short
  | balanced
  | detailed
  | veryDetailed
deriving DecidableEq

/-- The UI label of each slider value. -/
def lengthLabel : SummaryLength → String
  | .veryShort => "Very short"
  | .short => "Short"
  | .balanced => "Balanced"
  | .detailed => "Detailed"
  | .veryDetailed => "Very detailed"

/-- temp_map: the fixed temperature table keyed by the slider label. -/
def temp_map : SummaryLength → ℚ
  | .veryShort => 0.1
  | .short => 0.3
  | .balanced => 0.5
  | .detailed => 0.7
  | .veryDetailed => 0.9

/-- The language selectbox. -/
inductive SummaryLanguage
  | english
  | hindi
deriving DecidableEq

/-- UI label of the language choice. -/
def languageLabel : SummaryLanguage → String
  | .english => "English"
  | .hindi => "Hindi"

/-- The format radio choice. -/
inductive FormatType
  | paragraph
  | bulletPoints
deriving DecidableEq

/-- UI label of the format choice. -/
def formatLabel : FormatType → String
  | .paragraph => "Paragraph"
  | .bulletPoints => "Bullet points"

/-- Python str.lower() on the character data (ASCII labels only here). -/
def toLowerStr (s : String) : String :=
  String.mk (s.data.map Char.toLower)

/-- The prompt f-string of the handler, character for character. -/
def buildPrompt (len : SummaryLength) (lang : SummaryLanguage) (fmt : FormatType)
    (text_input : String) : String :=
  "\nProvide a " ++ toLowerStr (lengthLabel len) ++ " summary.\n\nLanguage: " ++
    languageLabel lang ++ "\nFormat: " ++ formatLabel fmt ++ "\n\nText:\n" ++
    text_input ++ "\n"

/-- Outcome of the external generate_content call, as seen by the handler:
response.text on success, str(e) on an exception. -/
inductive ApiResult
  | success (text : String)
  | failure (msg : String)
deriving DecidableEq

/-- reduction = ((original - summ) / original * 100) if original else 0,
with Python true division modelled over ℚ. -/
def reductionPercent (original summ : Nat) : ℚ :=
  if original ≠ 0 then ((original : ℚ) - (summ : ℚ)) / (original : ℚ) * 100 else 0

/-- The user-preview history entry text: an emoji-prefixed line quoting the
whitespace-split word count of the input. -/
def previewOf (text_input : String) : String :=
  "📄 Text submitted (" ++ toString (wordCount text_input) ++ " words)"

/-- What the handler displays after one click of Generate Summary. -/
inductive Outcome
  | rejectedQuota
  | rejectedEmpty
  | done (answer : String) (original summ : Nat) (reduction : ℚ)
  | quotaFail (shownLimit : Nat)
  | genericFail (msg : String)
deriving DecidableEq

/-- Result of one click: the displayed outcome, whether the external API was
invoked, and the session state afterwards. -/
structure GenResult where
  outcome : Outcome
  apiCalled : Bool
  state : AppState
deriving DecidableEq

/-- The Generate Summary handler: quota check, then empty-input check, then the
API call; on success increment request_count and append the user preview and the
answer to history; on failure classify by the RESOURCE_EXHAUSTED / 429
substrings and adopt an extracted quotaValue as the new daily_limit. -/
def generate (s : AppState) (text_input : String) (len : SummaryLength)
    (lang : SummaryLanguage) (fmt : FormatType) (api : ApiResult) : GenResult :=
  if s.request_count ≥ s.daily_limit then
    { outcome := .rejectedQuota, apiCalled := false, state := s }
  else if strip text_input = "" then
    { outcome := .rejectedEmpty, apiCalled := false, state := s }
  else
    match api with
    | .success answer =>
        { outcome := .done answer (wordCount text_input) (wordCount answer)
            (reductionPercent (wordCount text_input) (wordCount answer)),
          apiCalled := true,
          state := { s with
            request_count := s.request_count + 1,
            history := s.history ++ [("user", previewOf text_input), ("ai", answer)] } }
    | .failure msg =>
        if containsSubstr msg "RESOURCE_EXHAUSTED" || containsSubstr msg "429" then
          match extractQuotaValue msg with
          | some v =>
              { outcome := .quotaFail v, apiCalled := true,
                state := { s with daily_limit := v } }
          | none =>
              { outcome := .quotaFail s.daily_limit, apiCalled := true, state := s }
        else
          { outcome := .genericFail msg, apiCalled := true, state := s }

/-- The sidebar remaining figure: max(0, limit - used). -/
def remaining (s : AppState) : Int :=
  max 0 ((s.daily_limit : Int) - (s.request_count : Int))

/-- The sidebar progress fraction: used / limit if limit else 0. -/
def progressFraction (s : AppState) : ℚ :=
  if s.daily_limit ≠ 0 then (s.request_count : ℚ) / (s.daily_limit : ℚ) else 0

/-- One click of Generate Summary, with the inputs the handler reads bundled. -/
structure GenInput where
  text : String
  len : SummaryLength
  lang : SummaryLanguage
  fmt : FormatType
  api : ApiResult

/-- generate applied to a bundled input. -/
def generateI (s : AppState) (i : GenInput) : GenResult :=
  generate s i.text i.len i.lang i.fmt i.api

/-- The state after a sequence of Generate Summary clicks. -/
def runGen (s : AppState) : List GenInput → AppState
  | [] => s
  | i :: rest => runGen (generateI s i).state rest

/-- Session states reachable from first use through the operations of the app:
daily reset, Generate Summary clicks and Clear chat. -/
inductive Reachable : AppState → Prop
  | first (today : String) : Reachable (initState today)
  | reset (s : AppState) (today : String) : Reachable s → Reachable (dailyReset s today)
  | gen (s : AppState) (i : GenInput) : Reachable s → Reachable (generateI s i).state
  | clear (s : AppState) : Reachable s → Reachable (clearChat s)

/-- sub occurs verbatim inside whole. -/
def ContainsStr (sub whole : String) : Prop :=
  ∃ a b : String, whole = a ++ sub ++ b

/-- The length descriptor as it is rendered into the prompt: the lowercased
slider label. -/
def lengthDescriptor : SummaryLength → String
  | .veryShort => "very short"
  | .short => "short"
  | .balanced => "balanced"
  | .detailed => "detailed"
  | .veryDetailed => "very detailed"

/-! Helper lemmas about the handler, shared by several claims. -/

theorem str_append_assoc (a b c : String) : a ++ b ++ c = a ++ (b ++ c) := by
  cases a with
  | mk la =>
    cases b with
    | mk lb =>
      cases c with
      | mk lc =>
        show String.mk (la ++ lb ++ lc) = String.mk (la ++ (lb ++ lc))
        exact congrArg String.mk (List.append_assoc la lb lc)

theorem generate_quota_rejected (s : AppState) (text : String) (len : SummaryLength)
    (lang : SummaryLanguage) (fmt : FormatType) (api : ApiResult)
    (h : s.request_count ≥ s.daily_limit) :
    generate s text len lang fmt api
      = { outcome := Outcome.rejectedQuota, apiCalled := false, state := s } := by
  unfold generate
  rw [if_pos h]

theorem generate_empty_rejected (s : AppState) (text : String) (len : SummaryLength)
    (lang : SummaryLanguage) (fmt : FormatType) (api : ApiResult)
    (hq : s.request_count < s.daily_limit) (ht : strip text = "") :
    generate s text len lang fmt api
      = { outcome := Outcome.rejectedEmpty, apiCalled := false, state := s } := by
  unfold generate
  rw [if_neg (by omega), if_pos ht]

theorem generate_success_eq (s : AppState) (text : String) (len : SummaryLength)
    (lang : SummaryLanguage) (fmt : FormatType) (answer : String)
    (hq : s.request_count < s.daily_limit) (ht : ¬ strip text = "") :
    generate s text len lang fmt (ApiResult.success answer)
      = { outcome := Outcome.done answer (wordCount text) (wordCount answer)
            (reductionPercent (wordCount text) (wordCount answer)),
          apiCalled := true,
          state := { s with
            request_count := s.request_count + 1,
            history := s.history ++ [("user", previewOf text), ("ai", answer)] } } := by
  unfold generate
  rw [if_neg (by omega), if_neg ht]

theorem generate_failure_quota_some (s : AppState) (text : String) (len : SummaryLength)
    (lang : SummaryLanguage) (fmt : FormatType) (msg : String) (v : Nat)
    (hq : s.request_count < s.daily_limit) (ht : ¬ strip text = "")
    (hc : (containsSubstr msg "RESOURCE_EXHAUSTED" || containsSubstr msg "429") = true)
    (hv : extractQuotaValue msg = some v) :
    generate s text len lang fmt (ApiResult.failure msg)
      = { outcome := Outcome.quotaFail v, apiCalled := true,
          state := { s with daily_limit := v } } := by
  unfold generate
  rw [if_neg (by omega), if_neg ht]
  show (if containsSubstr msg "RESOURCE_EXHAUSTED" || containsSubstr msg "429" then _ else _) = _
  rw [if_pos hc, hv]

theorem generate_failure_quota_none (s : AppState) (text : String) (len : SummaryLength)
    (lang : SummaryLanguage) (fmt : FormatType) (msg : String)
    (hq : s.request_count < s.daily_limit) (ht : ¬ strip text = "")
    (hc : (containsSubstr msg "RESOURCE_EXHAUSTED" || containsSubstr msg "429") = true)
    (hv : extractQuotaValue msg = none) :
    generate s text len lang fmt (ApiResult.failure msg)
      = { outcome := Outcome.quotaFail s.daily_limit, apiCalled := true, state := s } := by
  unfold generate
  rw [if_neg (by omega), if_neg ht]
  show (if containsSubstr msg "RESOURCE_EXHAUSTED" || containsSubstr msg "429" then _ else _) = _
  rw [if_pos hc, hv]

theorem generate_failure_generic (s : AppState) (text : String) (len : SummaryLength)
    (lang : SummaryLanguage) (fmt : FormatType) (msg : String)
    (hq : s.request_count < s.daily_limit) (ht : ¬ strip text = "")
    (hc : (containsSubstr msg "RESOURCE_EXHAUSTED" || containsSubstr msg "429") = false) :
    generate s text len lang fmt (ApiResult.failure msg)
      = { outcome := Outcome.genericFail msg, apiCalled := true, state := s } := by
  unfold generate
  rw [if_neg (by omega), if_neg ht]
  show (if containsSubstr msg "RESOURCE_EXHAUSTED" || containsSubstr msg "429" then _ else _) = _
  rw [if_neg (by simp [hc])]

theorem runGen_rc (l : List GenInput) : ∀ s : AppState,
    (∀ i ∈ l, (∃ a, i.api = ApiResult.success a) ∧ ¬ strip i.text = "") →
    s.request_count + l.length ≤ s.daily_limit →
    (runGen s l).request_count = s.request_count + l.length ∧
    (runGen s l).daily_limit = s.daily_limit := by
  induction l with
  | nil =>
    intro s _ _
    simp [runGen]
  | cons i rest ih =>
    intro s h hle
    obtain ⟨⟨a, hapi⟩, ht⟩ := h i (List.mem_cons_self i rest)
    rw [List.length_cons] at hle
    have hq : s.request_count < s.daily_limit := by omega
    have hgi : generateI s i = generate s i.text i.len i.lang i.fmt (ApiResult.success a) := by
      rw [generateI, hapi]
    show (runGen (generateI s i).state rest).request_count = s.request_count + (i :: rest).length ∧
      (runGen (generateI s i).state rest).daily_limit = s.daily_limit
    rw [hgi, generate_success_eq s i.text i.len i.lang i.fmt a hq ht]
    obtain ⟨h1, h2⟩ := ih
      { s with request_count := s.request_count + 1,
               history := s.history ++ [("user", previewOf i.text), ("ai", a)] }
      (fun j hj => h j (List.mem_cons_of_mem i hj)) (by simpa using by omega)
    have h1' : (runGen
        { s with request_count := s.request_count + 1,
                 history := s.history ++ [("user", previewOf i.text), ("ai", a)] }
        rest).request_count = s.request_count + 1 + rest.length := h1
    have h2' : (runGen
        { s with request_count := s.request_count + 1,
                 history := s.history ++ [("user", previewOf i.text), ("ai", a)] }
        rest).daily_limit = s.daily_limit := h2
    rw [List.length_cons]
    exact ⟨by rw [h1']; omega, h2'⟩

theorem runGen_exhausted (s : AppState) (l : List GenInput)
    (h : s.request_count ≥ s.daily_limit) : runGen s l = s := by
  induction l with
  | nil => rfl
  | cons i rest ih =>
    show runGen (generateI s i).state rest = s
    rw [generateI, generate_quota_rejected s i.text i.len i.lang i.fmt i.api h]
    exact ih

/-- C1 counterexample: the user-preview entry appended on success is the string
"📄 Text submitted (2 words)" (with the page-emoji prefix), which is not equal
to the string "Text submitted (2 words)" that the claim states. -/
theorem c1_preview_counterexample :
    (generate (initState "2026-10-12") "hello world" SummaryLength.balanced
        SummaryLanguage.english FormatType.paragraph (ApiResult.success "ok")).state.history
      = [("user", "📄 Text submitted (2 words)"), ("ai", "ok")] ∧
    ("📄 Text submitted (2 words)" : String) ≠ "Text submitted (2 words)" := by
  exact ⟨by decide, by decide⟩

/-- C1 (amended): on every successful summarization the handler increments
request_count by exactly 1 and appends exactly two history entries in order,
first a user entry equal to "📄 Text submitted (N words)" where N is the
whitespace-split token count of the input, then an ai entry equal to the full
returned summary; and every sequence of N successful summarizations starting
from used = 0 with N < limit ends with used = N and remaining = limit - N. -/
theorem c1_success_commit :
    (∀ (s : AppState) (text : String) (len : SummaryLength) (lang : SummaryLanguage)
        (fmt : FormatType) (answer : String),
        s.request_count < s.daily_limit → ¬ strip text = "" →
        (generate s text len lang fmt (ApiResult.success answer)).state.request_count
            = s.request_count + 1 ∧
        (generate s text len lang fmt (ApiResult.success answer)).state.history
            = s.history ++
              [("user", "📄 Text submitted (" ++ toString (wordCount text) ++ " words)"),
               ("ai", answer)]) ∧
    (∀ (s : AppState) (l : List GenInput),
        s.request_count = 0 →
        (∀ i ∈ l, (∃ a, i.api = ApiResult.success a) ∧ ¬ strip i.text = "") →
        l.length < s.daily_limit →
        (runGen s l).request_count = l.length ∧
        remaining (runGen s l) = (s.daily_limit : Int) - (l.length : Int)) := by
  constructor
  · intro s text len lang fmt answer hq ht
    rw [generate_success_eq s text len lang fmt answer hq ht]
    exact ⟨rfl, rfl⟩
  · intro s l h0 h hlt
    obtain ⟨h1, h2⟩ := runGen_rc l s h (by omega)
    refine ⟨by omega, ?_⟩
    rw [remaining, h1, h2, h0]
    omega

/-- Witness for C1 (amended) at a concrete state, input and summary. -/
theorem c1_success_commit_witness :
    (generate (initState "2026-01-01") "a b" SummaryLength.balanced SummaryLanguage.english
        FormatType.paragraph (ApiResult.success "ok")).state.request_count
        = (initState "2026-01-01").request_count + 1 ∧
    (runGen (initState "2026-01-01")
        [⟨"a b", SummaryLength.balanced, SummaryLanguage.english, FormatType.paragraph,
          ApiResult.success "ok"⟩]).request_count = 1 := by
  constructor
  · exact (c1_success_commit.1 (initState "2026-01-01") "a b" SummaryLength.balanced
      SummaryLanguage.english FormatType.paragraph "ok" (by decide) (by decide)).1
  · have hel : ∀ i ∈ ([⟨"a b", SummaryLength.balanced, SummaryLanguage.english,
        FormatType.paragraph, ApiResult.success "ok"⟩] : List GenInput),
        (∃ a, i.api = ApiResult.success a) ∧ ¬ strip i.text = "" := by
      intro i hi
      rw [List.mem_singleton] at hi
      subst hi
      exact ⟨⟨"ok", rfl⟩, by decide⟩
    have h := (c1_success_commit.2 (initState "2026-01-01") _ rfl hel (by decide)).1
    simpa using h

/-- C2: a failed summarization call leaves request_count, history and day
unchanged; the only field that can change is daily_limit, and only by adopting
a quota value parsed out of a resource-exhaustion error message. -/
theorem c2_failure_atomic (s : AppState) (text : String) (len : SummaryLength)
    (lang : SummaryLanguage) (fmt : FormatType) (msg : String) :
    (generate s text len lang fmt (ApiResult.failure msg)).state.request_count
        = s.request_count ∧
    (generate s text len lang fmt (ApiResult.failure msg)).state.history = s.history ∧
    (generate s text len lang fmt (ApiResult.failure msg)).state.day = s.day ∧
    ((generate s text len lang fmt (ApiResult.failure msg)).state.daily_limit
          = s.daily_limit ∨
      ((containsSubstr msg "RESOURCE_EXHAUSTED" || containsSubstr msg "429") = true ∧
        extractQuotaValue msg
          = some (generate s text len lang fmt (ApiResult.failure msg)).state.daily_limit)) := by
  by_cases hq : s.request_count ≥ s.daily_limit
  · rw [generate_quota_rejected s text len lang fmt _ hq]
    exact ⟨rfl, rfl, rfl, Or.inl rfl⟩
  · push_neg at hq
    by_cases ht : strip text = ""
    · rw [generate_empty_rejected s text len lang fmt _ hq ht]
      exact ⟨rfl, rfl, rfl, Or.inl rfl⟩
    · by_cases hc : (containsSubstr msg "RESOURCE_EXHAUSTED" || containsSubstr msg "429") = true
      · cases hv : extractQuotaValue msg with
        | some v =>
          rw [generate_failure_quota_some s text len lang fmt msg v hq ht hc hv]
          exact ⟨rfl, rfl, rfl, Or.inr ⟨hc, rfl⟩⟩
        | none =>
          rw [generate_failure_quota_none s text len lang fmt msg hq ht hc hv]
          exact ⟨rfl, rfl, rfl, Or.inl rfl⟩
      · have hc2 : (containsSubstr msg "RESOURCE_EXHAUSTED" || containsSubstr msg "429")
            = false := by simpa using hc
        rw [generate_failure_generic s text len lang fmt msg hq ht hc2]
        exact ⟨rfl, rfl, rfl, Or.inl rfl⟩

/-- C3: a request made with used ≥ limit is rejected as QuotaExceeded, a request
with empty (after trimming) input and available quota is rejected as EmptyInput;
in both cases no external call is made and the state is untouched, and once the
quota is exhausted any number of further same-day attempts leaves the state
exactly as it was. -/
theorem c3_rejection :
    (∀ (s : AppState) (text : String) (len : SummaryLength) (lang : SummaryLanguage)
        (fmt : FormatType) (api : ApiResult),
        s.request_count ≥ s.daily_limit →
        generate s text len lang fmt api
          = { outcome := Outcome.rejectedQuota, apiCalled := false, state := s }) ∧
    (∀ (s : AppState) (text : String) (len : SummaryLength) (lang : SummaryLanguage)
        (fmt : FormatType) (api : ApiResult),
        s.request_count < s.daily_limit → strip text = "" →
        generate s text len lang fmt api
          = { outcome := Outcome.rejectedEmpty, apiCalled := false, state := s }) ∧
    (∀ (s : AppState) (l : List GenInput),
        s.request_count ≥ s.daily_limit → runGen s l = s) := by
  exact ⟨generate_quota_rejected, generate_empty_rejected,
         fun s l h => runGen_exhausted s l h⟩

/-- Witness for C3: a full quota rejects a request, an all-blank input with free
quota rejects as empty input, and repeated attempts at the limit change nothing. -/
theorem c3_rejection_witness :
    generate { day := "d", request_count := 50, daily_limit := 50, history := [] } "hi"
        SummaryLength.balanced SummaryLanguage.english FormatType.paragraph
        (ApiResult.success "x")
      = { outcome := Outcome.rejectedQuota, apiCalled := false,
          state := { day := "d", request_count := 50, daily_limit := 50, history := [] } } ∧
    generate (initState "d") "   " SummaryLength.balanced SummaryLanguage.english
        FormatType.paragraph (ApiResult.success "x")
      = { outcome := Outcome.rejectedEmpty, apiCalled := false, state := initState "d" } ∧
    runGen { day := "d", request_count := 50, daily_limit := 50, history := [] }
        [⟨"hi", SummaryLength.balanced, SummaryLanguage.english, FormatType.paragraph,
          ApiResult.success "x"⟩]
      = { day := "d", request_count := 50, daily_limit := 50, history := [] } := by
  exact ⟨c3_rejection.1 _ _ _ _ _ _ (by decide),
         c3_rejection.2.1 _ _ _ _ _ _ (by decide) (by decide),
         c3_rejection.2.2 _ _ (by decide)⟩

/-- C4: when the stored day differs from today, the reset block sets used to 0
and day to today and keeps daily_limit (and history) at their previous values. -/
theorem c4_daily_reset (s : AppState) (today : String) (h : s.day ≠ today) :
    dailyReset s today
      = { day := today, request_count := 0, daily_limit := s.daily_limit,
          history := s.history } := by
  rw [dailyReset, if_pos h]

/-- Witness for C4 at a concrete stale state. -/
theorem c4_daily_reset_witness :
    dailyReset { day := "2026-10-11", request_count := 3, daily_limit := 20, history := [("user", "x")] } "2026-10-12"
      = { day := "2026-10-12", request_count := 0, daily_limit := 20, history := [("user", "x")] } := by
  exact c4_daily_reset _ _ (by decide)

/-- C5: an API failure whose message contains RESOURCE_EXHAUSTED or 429 is
classified as a quota error; the first integer after the token quotaValue, when
present, becomes the new daily_limit exactly, with every other field unchanged;
with no parsable value the limit is unchanged; any other failure is surfaced
verbatim as a generic error with no state change at all. -/
theorem c5_error_classification (s : AppState) (text : String) (len : SummaryLength)
    (lang : SummaryLanguage) (fmt : FormatType) (msg : String)
    (hq : s.request_count < s.daily_limit) (ht : ¬ strip text = "") :
    ((containsSubstr msg "RESOURCE_EXHAUSTED" || containsSubstr msg "429") = true →
      (∀ v, extractQuotaValue msg = some v →
        generate s text len lang fmt (ApiResult.failure msg)
          = { outcome := Outcome.quotaFail v, apiCalled := true,
              state := { s with daily_limit := v } }) ∧
      (extractQuotaValue msg = none →
        generate s text len lang fmt (ApiResult.failure msg)
          = { outcome := Outcome.quotaFail s.daily_limit, apiCalled := true,
              state := s })) ∧
    ((containsSubstr msg "RESOURCE_EXHAUSTED" || containsSubstr msg "429") = false →
      generate s text len lang fmt (ApiResult.failure msg)
        = { outcome := Outcome.genericFail msg, apiCalled := true, state := s }) := by
  constructor
  · intro hc
    exact ⟨fun v hv => generate_failure_quota_some s text len lang fmt msg v hq ht hc hv,
           fun hv => generate_failure_quota_none s text len lang fmt msg hq ht hc hv⟩
  · intro hc
    exact generate_failure_generic s text len lang fmt msg hq ht hc

/-- Witness for C5: a message containing 429 and quotaValue: 20 makes
daily_limit exactly 20 with used unchanged (still 0). -/
theorem c5_error_classification_witness :
    generate (initState "d") "hi" SummaryLength.balanced SummaryLanguage.english
        FormatType.paragraph
        (ApiResult.failure "error 429: RESOURCE_EXHAUSTED quotaValue: 20")
      = { outcome := Outcome.quotaFail 20, apiCalled := true,
          state := { day := "d", request_count := 0, daily_limit := 20, history := [] } } := by
  exact ((c5_error_classification (initState "d") "hi" SummaryLength.balanced
      SummaryLanguage.english FormatType.paragraph
      "error 429: RESOURCE_EXHAUSTED quotaValue: 20" (by decide) (by decide)).1
        (by decide)).1 20 (by decide)

/-- C6: the derived temperature equals the fixed table exactly:
very short 0.1, short 0.3, balanced 0.5, detailed 0.7, very detailed 0.9. -/
theorem c6_temperature_table :
    temp_map SummaryLength.veryShort = 0.1 ∧
    temp_map SummaryLength.short = 0.3 ∧
    temp_map SummaryLength.balanced = 0.5 ∧
    temp_map SummaryLength.detailed = 0.7 ∧
    temp_map SummaryLength.veryDetailed = 0.9 := by
  exact ⟨rfl, rfl, rfl, rfl, rfl⟩

/-- C7: the built prompt contains, verbatim, the requested length descriptor
(as rendered, the lowercased slider label), the requested language, the
requested format and the full input text unmodified. -/
theorem c7_prompt_contains (len : SummaryLength) (lang : SummaryLanguage)
    (fmt : FormatType) (text : String) :
    ContainsStr (lengthDescriptor len) (buildPrompt len lang fmt text) ∧
    ContainsStr (languageLabel lang) (buildPrompt len lang fmt text) ∧
    ContainsStr (formatLabel fmt) (buildPrompt len lang fmt text) ∧
    ContainsStr text (buildPrompt len lang fmt text) := by
  have hdescr : toLowerStr (lengthLabel len) = lengthDescriptor len := by
    cases len <;> decide
  refine ⟨⟨"\nProvide a ",
            " summary.\n\nLanguage: " ++ languageLabel lang ++ "\nFormat: " ++
              formatLabel fmt ++ "\n\nText:\n" ++ text ++ "\n", ?_⟩,
          ⟨"\nProvide a " ++ toLowerStr (lengthLabel len) ++ " summary.\n\nLanguage: ",
            "\nFormat: " ++ formatLabel fmt ++ "\n\nText:\n" ++ text ++ "\n", ?_⟩,
          ⟨"\nProvide a " ++ toLowerStr (lengthLabel len) ++ " summary.\n\nLanguage: " ++
              languageLabel lang ++ "\nFormat: ",
            "\n\nText:\n" ++ text ++ "\n", ?_⟩,
          ⟨"\nProvide a " ++ toLowerStr (lengthLabel len) ++ " summary.\n\nLanguage: " ++
              languageLabel lang ++ "\nFormat: " ++ formatLabel fmt ++ "\n\nText:\n",
            "\n", ?_⟩⟩ <;>
    simp only [buildPrompt, hdescr, str_append_assoc]

/-- C8: the reduction metric is ((original - summary) / original) * 100 over
exact rationals when the original word count is nonzero, is 0 when the original
word count is 0, evaluates to exactly 80 at 100 and 20, and is exactly the
metric carried by the Done outcome of a successful generation. -/
theorem c8_reduction :
    (∀ summ : Nat, reductionPercent 0 summ = 0) ∧
    (∀ original summ : Nat, original ≠ 0 →
      reductionPercent original summ
        = ((original : ℚ) - (summ : ℚ)) / (original : ℚ) * 100) ∧
    reductionPercent 100 20 = 80 ∧
    (∀ (s : AppState) (text : String) (len : SummaryLength) (lang : SummaryLanguage)
        (fmt : FormatType) (answer : String),
        s.request_count < s.daily_limit → ¬ strip text = "" →
        (generate s text len lang fmt (ApiResult.success answer)).outcome
          = Outcome.done answer (wordCount text) (wordCount answer)
              (reductionPercent (wordCount text) (wordCount answer))) := by
  refine ⟨?_, ?_, ?_, ?_⟩
  · intro summ
    simp [reductionPercent]
  · intro original summ ho
    rw [reductionPercent, if_pos ho]
  · norm_num [reductionPercent]
  · intro s text len lang fmt answer hq ht
    rw [generate_success_eq s text len lang fmt answer hq ht]

/-- Witness for C8 at concrete word counts and a concrete successful run. -/
theorem c8_reduction_witness :
    reductionPercent 100 20 = ((100 : ℚ) - (20 : ℚ)) / (100 : ℚ) * 100 ∧
    (generate (initState "d") "a b c" SummaryLength.balanced SummaryLanguage.english
        FormatType.paragraph (ApiResult.success "ok")).outcome
      = Outcome.done "ok" (wordCount "a b c") (wordCount "ok")
          (reductionPercent (wordCount "a b c") (wordCount "ok")) := by
  exact ⟨c8_reduction.2.1 100 20 (by norm_num),
         c8_reduction.2.2.2 (initState "d") "a b c" SummaryLength.balanced
           SummaryLanguage.english FormatType.paragraph "ok" (by decide) (by decide)⟩

/-- C9: the quota check runs before the empty-input check, so a request made
with exhausted quota and blank input is reported as the quota rejection and
never as the empty-input warning. -/
theorem c9_quota_before_empty (s : AppState) (text : String) (len : SummaryLength)
    (lang : SummaryLanguage) (fmt : FormatType) (api : ApiResult)
    (hq : s.request_count ≥ s.daily_limit) (he : strip text = "") :
    (generate s text len lang fmt api).outcome = Outcome.rejectedQuota ∧
    (generate s text len lang fmt api).outcome ≠ Outcome.rejectedEmpty := by
  rw [generate_quota_rejected s text len lang fmt api hq]
  exact ⟨rfl, fun h => Outcome.noConfusion h⟩

/-- Witness for C9 at an exhausted state with a blank input. -/
theorem c9_quota_before_empty_witness :
    (generate { day := "d", request_count := 50, daily_limit := 50, history := [] } " "
        SummaryLength.balanced SummaryLanguage.english FormatType.paragraph
        (ApiResult.success "x")).outcome = Outcome.rejectedQuota ∧
    (generate { day := "d", request_count := 50, daily_limit := 50, history := [] } " "
        SummaryLength.balanced SummaryLanguage.english FormatType.paragraph
        (ApiResult.success "x")).outcome ≠ Outcome.rejectedEmpty := by
  exact c9_quota_before_empty _ _ _ _ _ _ (by decide) (by decide)

/-- C10: the usage display is total on every reachable state: the progress
fraction is 0 when daily_limit is 0 instead of dividing by zero, remaining is
never negative, and a state with used greater than limit is indeed reachable,
because the error handler can adopt a reported limit below the current count. -/
theorem c10_display_total :
    (∀ s : AppState, s.daily_limit = 0 → progressFraction s = 0) ∧
    (∀ s : AppState, 0 ≤ remaining s) ∧
    (∃ s : AppState, Reachable s ∧ s.daily_limit < s.request_count) := by
  refine ⟨?_, ?_, ?_⟩
  · intro s h
    rw [progressFraction, if_neg (by simp [h])]
  · intro s
    exact le_max_left 0 _
  · refine ⟨(generateI (generateI (initState "2026-10-12")
        ⟨"hi", SummaryLength.balanced, SummaryLanguage.english, FormatType.paragraph,
          ApiResult.success "ok"⟩).state
        ⟨"hi", SummaryLength.balanced, SummaryLanguage.english, FormatType.paragraph,
          ApiResult.failure "429 quotaValue: 0"⟩).state, ?_, ?_⟩
    · exact Reachable.gen _ _ (Reachable.gen _ _ (Reachable.first "2026-10-12"))
    · decide

/-- Witness for C10 at a concrete state with limit 0 and used 3. -/
theorem c10_display_total_witness :
    progressFraction { day := "d", request_count := 3, daily_limit := 0, history := [] }
        = 0 ∧
    (0 : Int) ≤ remaining { day := "d", request_count := 3, daily_limit := 0, history := [] } := by
  exact ⟨c10_display_total.1 _ rfl, c10_display_total.2.1 _⟩

end Summarizer
